import Mathlib

/-!
Verification development for the `terminalScript` repository: interactive
command-line wrappers around git (reset, stash, branch deletion, pull, push,
log, branch listing, checkout, clipboard copy, npm-script runner, help).

Shallow embedding conventions:
* A git subprocess invocation is recorded as its argument list
  (`GitArgs := List String`); both `spawnSync('git', args)` calls and
  `run('git ...')`/`execSync` string commands are recorded this way.
* Interactive prompts block for operator input; an answer is a parameter of
  the embedded flow.  An enquirer `Input` prompt with a `validate` predicate
  re-prompts on every invalid answer, so it is modelled by `inputSession`
  over the finite list of answers the operator types; exhausting the list
  without a valid answer models the operator finally cancelling the prompt.
* Read-only inspection queries (log, diff, status, rev-list, config, fetch,
  stash list) and mutating commands (reset, stash push/pop/apply/drop/clear,
  branch -d and -D, push, checkout, switch) are distinguished by `isMutating`.
-/

namespace TerminalScript

/-- Arguments of one git subprocess invocation. -/
abbrev GitArgs := List String

/-- Whether a git invocation mutates repository state (reset, stash
push/pop/apply/drop/clear, branch -d and -D, push, checkout, switch).  Inspection
commands — log, diff, status, rev-list, config, ls-files, stash list, and
fetch (classified as a read-only Git Inspector query by the design) — are not
mutating. -/
def isMutating (args : GitArgs) : Bool :=
  match args with
  | "reset" :: _ => true
  | "stash" :: sub :: _ =>
      sub == "push" || sub == "pop" || sub == "apply" || sub == "drop" || sub == "clear"
  | "branch" :: flag :: _ => flag == "-d" || flag == "-D"
  | "push" :: _ => true
  | "checkout" :: _ => true
  | "switch" :: _ => true
  | _ => false

/-- JS `parseInt` on the decimal strings these tools feed it: the longest
leading run of digits, `none` when there is none (NaN). -/
def parseIntJS (s : String) : Option Nat :=
  let ds := s.data.takeWhile (fun c => c.isDigit)
  if ds.isEmpty then none
  else some (ds.foldl (fun a c => a * 10 + (c.toNat - 48)) 0)

/-- An enquirer `Input` prompt with a `validate` predicate: each answer the
operator types is checked; an invalid answer re-prompts.  Returns the number
of answers consumed (one prompt render per consumed answer) and the first
valid answer, `none` when every typed answer was invalid (the operator then
cancels the prompt). -/
def inputSession (validate : String → Bool) : List String → Nat × Option String
  | [] => (0, none)
  | a :: rest =>
      if validate a then (1, some a)
      else
        let (n, r) := inputSession validate rest
        (n + 1, r)

/-- `src/scripts/res.js` `resetCommits` custom-count validation:
`parseInt(value) > 0 && parseInt(value) < 100`. -/
def validateCustomCount (value : String) : Bool :=
  match parseIntJS value with
  | some n => 0 < n && n < 100
  | none => false

/-- `src/scripts/res.js` `getStagedFiles`: one staged file parsed from a line
of `git diff --cached --name-status`. -/
structure StagedFile where
  file : String
  status : String
  deriving DecidableEq, Repr

/-- `src/scripts/res.js` `getStagedFiles` status switch. -/
def statusText (status : String) : String :=
  if status == "M" then "modified"
  else if status == "A" then "new file"
  else if status == "D" then "deleted"
  else if status == "R" then "renamed"
  else "changed"

/-- Names offered by the unstage multi-select: the synthetic select-all entry
followed by the staged file paths, in staged-list order
(`src/scripts/res.js` lines 257-263). -/
def unstageChoices (staged : List StagedFile) : List String :=
  "__all__" :: staged.map (·.file)

/-- `src/scripts/res.js` lines 273-278: if the multi-select result contains
the synthetic `__all__` entry it expands to every staged file, otherwise any
stray `__all__` is filtered out. -/
def processSelection (stagedFiles : List String) (selected : List String) : List String :=
  if selected.contains "__all__" then stagedFiles
  else selected.filter (fun s => s != "__all__")

/-- `src/scripts/res.js` lines 286-294: unstage each selected file in order
with `git reset HEAD <file>` through `spawnSync` (stdio piped), recording a
per-file success/failure report; `fails` is the environment's answer to which
invocations exit non-zero.  Returns the invocation trace and the report
(file, succeeded). -/
def unstageLoop (fails : String → Bool) : List String → List GitArgs × List (String × Bool)
  | [] => ([], [])
  | f :: rest =>
      let (t, r) := unstageLoop fails rest
      (["reset", "HEAD", f] :: t, (f, !fails f) :: r)

/-- Outcome of one `res.js` unstage flow run. -/
structure UnstageOut where
  trace : List GitArgs
  report : List (String × Bool)
  deriving Repr, DecidableEq

/-- `src/scripts/res.js` `unstageFiles`: list staged files, multi-select
(answer `selected`), expand/strip the `__all__` entry, unstage each chosen
file in order.  The initial `git diff --cached --name-status` query is the
head of the trace.  An empty effective selection performs no git reset. -/
def unstageFiles (staged : List StagedFile) (selected : List String)
    (fails : String → Bool) : UnstageOut :=
  let query : GitArgs := ["diff", "--cached", "--name-status"]
  if staged.isEmpty then ⟨[query], []⟩
  else
    let chosen := processSelection (staged.map (·.file)) selected
    if chosen.isEmpty then ⟨[query], []⟩
    else
      let (t, r) := unstageLoop fails chosen
      ⟨query :: t, r⟩

theorem unstageLoop_trace (fails : String → Bool) (files : List String) :
    (unstageLoop fails files).1 = files.map (fun f => ["reset", "HEAD", f]) := by
  induction files with
  | nil => rfl
  | cons f rest ih => simp [unstageLoop, ih]

theorem unstageLoop_report (fails : String → Bool) (files : List String) :
    (unstageLoop fails files).2 = files.map (fun f => (f, !fails f)) := by
  induction files with
  | nil => rfl
  | cons f rest ih => simp [unstageLoop, ih]

/-- C5: in the unstage-files batch operation, whatever subset of the selected
files fails, every file of the effective selection is attempted with its own
`git reset HEAD <file>` invocation, in selection order, and every file's
individual success or failure is reported; the flow never stops early. -/
theorem claim_C5 (staged : List StagedFile) (selected : List String)
    (fails : String → Bool) (h1 : staged ≠ [])
    (h2 : processSelection (staged.map (·.file)) selected ≠ []) :
    (unstageFiles staged selected fails).trace =
      ["diff", "--cached", "--name-status"] ::
        (processSelection (staged.map (·.file)) selected).map
          (fun f => ["reset", "HEAD", f]) ∧
    (unstageFiles staged selected fails).report =
      (processSelection (staged.map (·.file)) selected).map
        (fun f => (f, !fails f)) := by
  have e1 : staged.isEmpty = false := by
    simpa [List.isEmpty_iff] using h1
  have e2 : (processSelection (staged.map (·.file)) selected).isEmpty = false := by
    simpa [List.isEmpty_iff] using h2
  constructor
  · simp [unstageFiles, e1, e2, unstageLoop_trace]
  · simp [unstageFiles, e1, e2, unstageLoop_report]

/-- Witness for C5: the spec's scenario — three staged files, the second
unstage fails, all three are attempted and all three outcomes reported. -/
theorem claim_C5_witness :
    (unstageFiles [⟨"f1", "M"⟩, ⟨"f2", "M"⟩, ⟨"f3", "M"⟩] ["f1", "f2", "f3"]
        (fun f => f == "f2")).trace =
      [["diff", "--cached", "--name-status"], ["reset", "HEAD", "f1"],
        ["reset", "HEAD", "f2"], ["reset", "HEAD", "f3"]] ∧
    (unstageFiles [⟨"f1", "M"⟩, ⟨"f2", "M"⟩, ⟨"f3", "M"⟩] ["f1", "f2", "f3"]
        (fun f => f == "f2")).report =
      [("f1", true), ("f2", false), ("f3", true)] := by
  exact claim_C5 [⟨"f1", "M"⟩, ⟨"f2", "M"⟩, ⟨"f3", "M"⟩] ["f1", "f2", "f3"]
    (fun f => f == "f2") (by decide) (by decide)

/-- C6: choosing the synthetic select-all entry over staged files whose paths
do not use the reserved name is the same run as manually selecting every
staged file individually; the effective selection is the staged file list in
order, and the synthetic entry itself is not in it. -/
theorem claim_C6 (staged : List StagedFile) (fails : String → Bool)
    (h : "__all__" ∉ staged.map (·.file)) :
    unstageFiles staged ["__all__"] fails =
      unstageFiles staged (staged.map (·.file)) fails ∧
    processSelection (staged.map (·.file)) ["__all__"] = staged.map (·.file) ∧
    "__all__" ∉ processSelection (staged.map (·.file)) ["__all__"] := by
  have hall : processSelection (staged.map (·.file)) ["__all__"] =
      staged.map (·.file) := by
    simp [processSelection]
  have hc : (staged.map (·.file)).contains "__all__" = false := by
    simpa [List.contains, List.elem_eq_mem] using h
  have hmanual : processSelection (staged.map (·.file)) (staged.map (·.file)) =
      staged.map (·.file) := by
    rw [processSelection, if_neg (by rw [hc]; exact Bool.false_ne_true)]
    refine List.filter_eq_self.mpr ?_
    intro a ha
    have hne : a ≠ "__all__" := fun e => h (e ▸ ha)
    simp [hne]
  refine ⟨?_, hall, hall ▸ h⟩
  simp only [unstageFiles, hall, hmanual]

/-- Witness for C6: two staged files, select-all versus selecting both. -/
theorem claim_C6_witness :
    unstageFiles [⟨"a", "M"⟩, ⟨"b", "A"⟩] ["__all__"] (fun _ => false) =
      unstageFiles [⟨"a", "M"⟩, ⟨"b", "A"⟩] ["a", "b"] (fun _ => false) ∧
    processSelection ["a", "b"] ["__all__"] = ["a", "b"] ∧
    "__all__" ∉ processSelection ["a", "b"] ["__all__"] := by
  exact claim_C6 [⟨"a", "M"⟩, ⟨"b", "A"⟩] (fun _ => false) (by decide)

/-! ## `res.js` rewind-commits flow (`resetCommits`) -/

/-- The three git reset modes offered by `res.js`. -/
inductive ResetMode where
  | soft
  | mixed
  | hard
  deriving DecidableEq, Repr

/-- The flag `res.js` builds as `--` + mode name. -/
def ResetMode.flag : ResetMode → String
  | .soft => "--soft"
  | .mixed => "--mixed"
  | .hard => "--hard"

/-- If every answer in `attempts` fails the validation, the prompt consumes
(re-prompts after) every answer and never resolves. -/
theorem inputSession_all_invalid (validate : String → Bool) (attempts : List String)
    (h : ∀ a ∈ attempts, validate a = false) :
    inputSession validate attempts = (attempts.length, none) := by
  induction attempts with
  | nil => rfl
  | cons a rest ih =>
      have ha : validate a = false := h a (List.mem_cons_self a rest)
      have := ih (fun x hx => h x (List.mem_cons_of_mem a hx))
      simp [inputSession, ha, this]

/-- `src/scripts/res.js` lines 209-222: the hard-mode second confirmation.
Only mode `hard` runs the typed-"yes" `Input` (whose `validate` accepts
exactly the literal `"yes"` and re-prompts otherwise); the other modes skip
it.  Returns (number of confirmation prompts rendered, proceed?). -/
def hardConfirm (mode : ResetMode) (attempts : List String) : Nat × Bool :=
  match mode with
  | ResetMode.hard =>
      let r := inputSession (fun v => v == "yes") attempts
      (r.1, r.2.isSome)
  | _ => (0, true)

/-- The operator's answers in one run of the rewind flow. -/
structure ResetCommitsSession where
  /-- answer to the count `Select`: "1", "2", "3", "5" or "custom" -/
  countChoice : String
  /-- answers typed at the custom-count `Input` (validated 1-99) -/
  customAttempts : List String
  /-- answer to the mode `Select` -/
  mode : ResetMode
  /-- answers typed at the hard-mode confirmation `Input` -/
  hardConfirmAttempts : List String
  /-- exit status of the `git reset` invocation, from the environment -/
  resetSucceeds : Bool
  deriving Repr

/-- Outcome of one run of `resetCommits`. -/
structure ResetCommitsOut where
  trace : List GitArgs
  /-- the flow reached and issued the `git reset` -/
  completed : Bool
  /-- renders of the hard-mode confirmation prompt -/
  hardPrompts : Nat
  deriving Repr, DecidableEq

/-- `src/scripts/res.js` `resetCommits` (lines 145-242): pick a rewind count
(preset or validated custom input), list the commits to be rewound
(`git log -N`), pick a mode, run the typed confirmation when the mode is
`hard`, then execute `git reset --<mode> HEAD~<count>`; on success one more
`git log -1` query displays the new HEAD. -/
def resetCommits (s : ResetCommitsSession) : ResetCommitsOut :=
  match (if s.countChoice == "custom"
         then (inputSession validateCustomCount s.customAttempts).2
         else some s.countChoice) with
  | none => ⟨[], false, 0⟩
  | some countStr =>
      let numCount := (parseIntJS countStr).getD 0
      let logQuery : GitArgs :=
        ["log", "-" ++ toString numCount, "--pretty=format:%H|%h|%s|%ar|%an"]
      let hc := hardConfirm s.mode s.hardConfirmAttempts
      if hc.2 then
        ⟨logQuery :: ["reset", s.mode.flag, "HEAD~" ++ toString numCount] ::
            (if s.resetSucceeds
             then [(["log", "-1", "--pretty=format:%h - %s"] : GitArgs)] else []),
          true, hc.1⟩
      else ⟨[logQuery], false, hc.1⟩

theorem isMutating_log (rest : List String) : isMutating ("log" :: rest) = false := rfl

theorem isMutating_reset (rest : List String) : isMutating ("reset" :: rest) = true := rfl

/-- C1: in the rewind flow with mode `hard`, if no typed answer is the exact
literal "yes", the flow never executes the git reset (no mutating command at
all appears in the trace, the flow does not complete) and the confirmation
prompt re-prompts after every one of the answers without resolving. -/
theorem claim_C1 (s : ResetCommitsSession) (hm : s.mode = ResetMode.hard)
    (h : ∀ a ∈ s.hardConfirmAttempts, a ≠ "yes") :
    (resetCommits s).trace.filter isMutating = [] ∧
    (resetCommits s).completed = false ∧
    inputSession (fun v => v == "yes") s.hardConfirmAttempts =
      (s.hardConfirmAttempts.length, none) := by
  have hall : ∀ a ∈ s.hardConfirmAttempts, (a == "yes") = false := by
    intro a ha
    simpa using h a ha
  have hsession := inputSession_all_invalid (fun v => v == "yes")
    s.hardConfirmAttempts hall
  have hhc : hardConfirm s.mode s.hardConfirmAttempts =
      (s.hardConfirmAttempts.length, false) := by
    rw [hm]
    simp [hardConfirm, hsession]
  refine ⟨?_, ?_, hsession⟩ <;>
  · unfold resetCommits
    cases hcount : (if s.countChoice == "custom"
        then (inputSession validateCustomCount s.customAttempts).2
        else some s.countChoice) with
    | none => simp
    | some countStr => simp [hhc, isMutating_log]

/-- Witness for C1: hard mode with answers "no", "YES", "y" — three
re-prompts, no reset, no mutating command. -/
theorem claim_C1_witness :
    (resetCommits ⟨"2", [], ResetMode.hard, ["no", "YES", "y"], true⟩).trace.filter
        isMutating = [] ∧
    (resetCommits ⟨"2", [], ResetMode.hard, ["no", "YES", "y"], true⟩).completed
        = false ∧
    inputSession (fun v => v == "yes") ["no", "YES", "y"] = (3, none) := by
  exact claim_C1 ⟨"2", [], ResetMode.hard, ["no", "YES", "y"], true⟩ rfl (by decide)

/-- `parseIntJS` round-trips the decimal rendering of every count below 100. -/
theorem parseIntJS_toString_small : ∀ N : ℕ, N < 100 → parseIntJS (toString N) = some N := by
  decide

theorem validateCustomCount_toString (N : ℕ) (h1 : 1 ≤ N) (h2 : N ≤ 99) :
    validateCustomCount (toString N) = true := by
  have hp := parseIntJS_toString_small N (by omega)
  simp only [validateCustomCount, hp]
  simp only [Bool.and_eq_true, decide_eq_true_eq]
  omega

/-- C7: for every N in [1,99], rewinding N commits with mode `mixed` (count
typed at the custom prompt) issues exactly one mutating git command, the
reset `git reset --mixed HEAD~N`, whatever the confirmation answers and the
reset's exit status are; the flow completes. -/
theorem claim_C7 (N : ℕ) (h1 : 1 ≤ N) (h2 : N ≤ 99) (hc : List String) (b : Bool) :
    (resetCommits ⟨"custom", [toString N], ResetMode.mixed, hc, b⟩).trace.filter
        isMutating = [["reset", "--mixed", "HEAD~" ++ toString N]] ∧
    (resetCommits ⟨"custom", [toString N], ResetMode.mixed, hc, b⟩).completed
        = true := by
  have hv := validateCustomCount_toString N h1 h2
  have hp := parseIntJS_toString_small N (by omega)
  have hsession : inputSession validateCustomCount [toString N] =
      (1, some (toString N)) := by
    simp [inputSession, hv]
  constructor
  · unfold resetCommits
    simp only [hsession]
    cases b <;> simp [hardConfirm, hp, isMutating_log, isMutating_reset,
      ResetMode.flag, List.filter]
  · unfold resetCommits
    simp only [hsession]
    cases b <;> simp [hardConfirm, hp]

/-- Witness for C7: N = 7. -/
theorem claim_C7_witness :
    (resetCommits ⟨"custom", [toString 7], ResetMode.mixed, [], true⟩).trace.filter
        isMutating = [["reset", "--mixed", "HEAD~" ++ toString 7]] ∧
    (resetCommits ⟨"custom", [toString 7], ResetMode.mixed, [], true⟩).completed
        = true := by
  exact claim_C7 7 (by decide) (by decide) [] true

/-! ## `res.js` sync-to-remote flow (`getRemoteDiff`, `resetToRemote`) -/

/-- `src/scripts/res.js` `getRemoteBranch` result: the resolved remote
tracking branch of the current local branch. -/
structure RemoteInfo where
  localBranch : String
  remote : String
  remoteBranch : String
  fullRemote : String
  deriving Repr, DecidableEq

/-- `src/scripts/res.js` `getRemoteDiff` result record. -/
structure RemoteDiff where
  ahead : Nat
  behind : Nat
  aheadCommits : List String
  behindCommits : List String
  deriving Repr, DecidableEq

theorem isMutating_fetch (rest : List String) : isMutating ("fetch" :: rest) = false := rfl

theorem isMutating_revList (rest : List String) :
    isMutating ("rev-list" :: rest) = false := rfl

/-- `src/scripts/res.js` `getRemoteDiff` (lines 105-129): fetch the remote,
run the two `rev-list --count` range queries (`ignoreError`: a failed query
yields the empty string), and—because any non-empty count string, `"0"`
included, is truthy in JS—query the commit lines of each non-empty side.
`aheadStr`/`behindStr` and the commit-line lists are the environment's
answers to those queries.  Returns the query trace and the diff record with
`parseInt(x) || 0` counts. -/
def getRemoteDiff (info? : Option RemoteInfo) (aheadStr behindStr : String)
    (aheadLines behindLines : List String) : List GitArgs × Option RemoteDiff :=
  match info? with
  | none => ([], none)
  | some info =>
      let t0 : List GitArgs :=
        [["fetch", info.remote],
         ["rev-list", "--count", info.fullRemote ++ "..HEAD"],
         ["rev-list", "--count", "HEAD.." ++ info.fullRemote]]
      let t1 : List GitArgs :=
        if aheadStr == "" then []
        else [["log", info.fullRemote ++ "..HEAD", "--pretty=format:%h %s"]]
      let t2 : List GitArgs :=
        if behindStr == "" then []
        else [["log", "HEAD.." ++ info.fullRemote, "--pretty=format:%h %s"]]
      (t0 ++ t1 ++ t2,
        some ⟨(parseIntJS aheadStr).getD 0, (parseIntJS behindStr).getD 0,
          if aheadStr == "" then [] else aheadLines,
          if behindStr == "" then [] else behindLines⟩)

/-- Outcome of one run of `resetToRemote`. -/
structure ResetToRemoteOut where
  trace : List GitArgs
  msgs : List String
  /-- the reset-mode `Select` prompt was rendered -/
  promptedMode : Bool
  deriving Repr, DecidableEq

/-- `src/scripts/res.js` `resetToRemote` (lines 301-381): resolve the remote
tracking branch, compute the diff; when already in sync report and return;
otherwise prompt for a mode and a yes/no confirmation and, when confirmed,
reset the local branch to the remote ref. -/
def resetToRemote (info? : Option RemoteInfo) (aheadStr behindStr : String)
    (aheadLines behindLines : List String) (mode : ResetMode)
    (confirmed : Bool) (resetSucceeds : Bool) : ResetToRemoteOut :=
  match info? with
  | none => ⟨[], ["❌ 无法获取远程分支信息"], false⟩
  | some info =>
      let r := getRemoteDiff (some info) aheadStr behindStr aheadLines behindLines
      match r.2 with
      | none => ⟨r.1, ["❌ 无法获取远程差异信息"], false⟩
      | some diff =>
          if diff.ahead == 0 && diff.behind == 0 then
            ⟨r.1, ["✅ 本地分支已经与远程分支同步"], false⟩
          else if confirmed then
            ⟨r.1 ++ [["reset", mode.flag, info.fullRemote]],
              [if resetSucceeds then "✅ 已成功重置到 " ++ info.fullRemote
               else "❌ 重置失败"], true⟩
          else ⟨r.1, ["已取消操作"], true⟩

/-- C4: running sync-to-remote when the branch is neither ahead of nor behind
its remote (both rev-list counts parse to 0) performs zero mutating git
calls, reports the branches already in sync, and returns without rendering
the reset-mode prompt. -/
theorem claim_C4 (info : RemoteInfo) (aheadStr behindStr : String)
    (aheadLines behindLines : List String) (mode : ResetMode)
    (confirmed resetSucceeds : Bool)
    (ha : (parseIntJS aheadStr).getD 0 = 0)
    (hb : (parseIntJS behindStr).getD 0 = 0) :
    (resetToRemote (some info) aheadStr behindStr aheadLines behindLines mode
        confirmed resetSucceeds).trace.filter isMutating = [] ∧
    (resetToRemote (some info) aheadStr behindStr aheadLines behindLines mode
        confirmed resetSucceeds).msgs = ["✅ 本地分支已经与远程分支同步"] ∧
    (resetToRemote (some info) aheadStr behindStr aheadLines behindLines mode
        confirmed resetSucceeds).promptedMode = false := by
  refine ⟨?_, ?_, ?_⟩ <;>
  · unfold resetToRemote getRemoteDiff
    simp only [ha, hb]
    cases h1 : aheadStr == "" <;> cases h2 : behindStr == "" <;>
      simp [isMutating_fetch, isMutating_revList, isMutating_log, List.filter]

/-- Witness for C4: both rev-list counts answer "0". -/
theorem claim_C4_witness :
    (resetToRemote (some ⟨"main", "origin", "main", "origin/main"⟩) "0" "0"
        ["a"] ["b"] ResetMode.mixed true true).trace.filter isMutating = [] ∧
    (resetToRemote (some ⟨"main", "origin", "main", "origin/main"⟩) "0" "0"
        ["a"] ["b"] ResetMode.mixed true true).msgs =
      ["✅ 本地分支已经与远程分支同步"] ∧
    (resetToRemote (some ⟨"main", "origin", "main", "origin/main"⟩) "0" "0"
        ["a"] ["b"] ResetMode.mixed true true).promptedMode = false := by
  exact claim_C4 ⟨"main", "origin", "main", "origin/main"⟩ "0" "0" ["a"] ["b"]
    ResetMode.mixed true true (by decide) (by decide)

/-! ## `bd.js` branch deletion -/

/-- Trace and exit code of one complete run of a tool's process. -/
structure ToolRun where
  trace : List GitArgs
  exitCode : Nat
  deriving Repr, DecidableEq

/-- `src/scripts/bd.js` `deleteLocalBranches` (lines 46-64): try
`git branch -d` on each branch in order, collecting per-branch successes and
failures without stopping; `fails` is which invocations exit non-zero.
Returns (trace, successes, failures). -/
def deleteLocalBranches (fails : String → Bool) :
    List String → List GitArgs × List String × List String
  | [] => ([], [], [])
  | b :: rest =>
      let r := deleteLocalBranches fails rest
      (["branch", "-d", b] :: r.1,
        if fails b then (r.2.1, b :: r.2.2) else (b :: r.2.1, r.2.2))

/-- `src/scripts/bd.js` `forceDeleteLocalBranches` (lines 67-80): same loop
with `git branch -D`. -/
def forceDeleteLocalBranches (fails : String → Bool) :
    List String → List GitArgs × List String × List String
  | [] => ([], [], [])
  | b :: rest =>
      let r := forceDeleteLocalBranches fails rest
      (["branch", "-D", b] :: r.1,
        if fails b then (r.2.1, b :: r.2.2) else (b :: r.2.1, r.2.2))

/-- `src/scripts/bd.js` `deleteRemoteBranches` ref parsing: split a
`remote/branch` ref at the first slash (`indexOf`/`slice`); `none` when the
ref has no slash. -/
def splitRemoteRef (ref : String) : Option (String × String) :=
  match ref.splitOn "/" with
  | [] => none
  | [_] => none
  | r :: rest => some (r, String.intercalate "/" rest)

/-- `src/scripts/bd.js` `deleteRemoteBranches` (lines 83-104): for each
selected remote ref, `git push <remote> --delete <branch>`; an unparsable
ref is recorded as a failure without any invocation. -/
def deleteRemoteBranches (fails : String → Bool) :
    List String → List GitArgs × List String × List String
  | [] => ([], [], [])
  | ref :: rest =>
      let r := deleteRemoteBranches fails rest
      match splitRemoteRef ref with
      | none => (r.1, r.2.1, ref :: r.2.2)
      | some p =>
          (["push", p.1, "--delete", p.2] :: r.1,
            if fails ref then (r.2.1, ref :: r.2.2) else (ref :: r.2.1, r.2.2))

/-- Environment and operator answers for one run of `bd.js` `main`.  The
`Option` selections are `none` when the operator interrupts that
`MultiSelect` (enquirer rejects with the empty string; `bd.js` then prints a
cancellation message and calls `process.exit(1)`).  Interrupting one of the
`Confirm` prompts instead rejects to the top-level catch, which also exits
1; the booleans here are answered confirms. -/
structure BdEnv where
  current : String
  heads : List String
  selection : Option (List String)
  c1 : Bool
  failsSafe : String → Bool
  force : Bool
  failsForce : String → Bool
  askRemote : Bool
  remoteRefs : List String
  remoteSelection : Option (List String)
  failsRemote : String → Bool

/-- `src/scripts/bd.js` line 116: the selectable candidates are the local
branches with the current branch filtered out. -/
def bdCandidates (e : BdEnv) : List String :=
  e.heads.filter (fun b => b != e.current)

/-- `src/scripts/bd.js` lines 147-152: expand the synthetic `__all__` entry
to every candidate, otherwise strip it from the selection. -/
def bdSelected (localBranches : List String) (sel0 : List String) : List String :=
  if sel0.contains "__all__" then localBranches
  else sel0.filter (fun s => s != "__all__")

/-- `src/scripts/bd.js` lines 172-204: safe deletion of the selection, then,
when some branches could not be safely deleted and the operator confirms,
forced deletion of exactly the failed ones.  Returns (trace, branches
actually deleted). -/
def bdLocalStage (e : BdEnv) (selected : List String) : List GitArgs × List String :=
  let d := deleteLocalBranches e.failsSafe selected
  if d.2.2.isEmpty then (d.1, d.2.1)
  else if e.force then
    let fd := forceDeleteLocalBranches e.failsForce d.2.2
    (d.1 ++ fd.1, d.2.1 ++ fd.2.1)
  else (d.1, d.2.1)

/-- `src/scripts/bd.js` lines 224-292: remote refs whose name ends with
`/<deleted local branch>` are offered (deduplicated, first occurrence kept);
the chosen ones are deleted with `git push --delete`.  Returns (trace, exit
code of this stage). -/
def bdRemoteSelect (e : BdEnv) (uniq : List String) : List GitArgs × Nat :=
  match e.remoteSelection with
  | none => ([], 1)
  | some rsel0 =>
      let rsel := bdSelected uniq rsel0
      if rsel.isEmpty then ([], 0)
      else ((deleteRemoteBranches e.failsRemote rsel).1, 0)

/-- `src/scripts/bd.js` lines 224-247: remote-ref candidates whose name ends
with `/<deleted local branch>`, deduplicated keeping first occurrences. -/
def bdRemoteStage (e : BdEnv) (deletedLocal : List String) : List GitArgs × Nat :=
  let candidates := e.remoteRefs.filter
    (fun r => deletedLocal.any (fun b => r.endsWith ("/" ++ b)))
  let uniq := candidates.eraseDups
  if uniq.isEmpty then ([], 0)
  else bdRemoteSelect e uniq

/-- `src/scripts/bd.js` `main` after the branch `MultiSelect` resolved:
confirm, safe-delete, optional force-delete, optional remote stage. -/
def bdAfterSelection (e : BdEnv) (localBranches sel0 : List String) : ToolRun :=
  let selected := bdSelected localBranches sel0
  if selected.isEmpty then ⟨[], 0⟩
  else if !e.c1 then ⟨[], 0⟩
  else
    let ls := bdLocalStage e selected
    if ls.2.isEmpty then ⟨ls.1, 0⟩
    else if !e.askRemote then ⟨ls.1, 0⟩
    else
      let rs := bdRemoteStage e ls.2
      ⟨ls.1 ++ rs.1, rs.2⟩

/-- `src/scripts/bd.js` `main` (lines 106-293): filter out the current
branch, multi-select (cancellation exits 1 before anything mutating),
confirm, safe-delete then optionally force-delete, then optionally delete
matching remote branches. -/
def bdMain (e : BdEnv) : ToolRun :=
  let localBranches := bdCandidates e
  if localBranches.isEmpty then ⟨[], 0⟩
  else
    match e.selection with
    | none => ⟨[], 1⟩
    | some sel0 => bdAfterSelection e localBranches sel0

theorem deleteLocalBranches_trace (fails : String → Bool) (l : List String) :
    (deleteLocalBranches fails l).1 = l.map (fun b => ["branch", "-d", b]) := by
  induction l with
  | nil => rfl
  | cons b rest ih => simp [deleteLocalBranches, ih]

theorem forceDeleteLocalBranches_trace (fails : String → Bool) (l : List String) :
    (forceDeleteLocalBranches fails l).1 = l.map (fun b => ["branch", "-D", b]) := by
  induction l with
  | nil => rfl
  | cons b rest ih => simp [forceDeleteLocalBranches, ih]

theorem deleteLocalBranches_fail_subset (fails : String → Bool) (l : List String) :
    ∀ b ∈ (deleteLocalBranches fails l).2.2, b ∈ l := by
  induction l with
  | nil => intro b hb; simp [deleteLocalBranches] at hb
  | cons a rest ih =>
      intro b hb
      by_cases hf : fails a = true
      · simp [deleteLocalBranches, hf] at hb
        rcases hb with h | h
        · exact h ▸ List.mem_cons_self a rest
        · exact List.mem_cons_of_mem a (ih b h)
      · simp [deleteLocalBranches, hf] at hb
        exact List.mem_cons_of_mem a (ih b hb)

theorem deleteRemoteBranches_trace_push (fails : String → Bool) (l : List String) :
    ∀ args ∈ (deleteRemoteBranches fails l).1, ∃ rest, args = "push" :: rest := by
  induction l with
  | nil => intro args h; simp [deleteRemoteBranches] at h
  | cons ref rest ih =>
      intro args h
      unfold deleteRemoteBranches at h
      cases hs : splitRemoteRef ref with
      | none =>
          simp only [hs] at h
          exact ih args h
      | some p =>
          simp only [hs, List.mem_cons] at h
          rcases h with h | h
          · exact ⟨[p.1, "--delete", p.2], h⟩
          · exact ih args h

theorem bdLocalStage_trace (e : BdEnv) (selected : List String) :
    ∀ args ∈ (bdLocalStage e selected).1, ∃ b ∈ selected,
      args = ["branch", "-d", b] ∨ args = ["branch", "-D", b] := by
  intro args h
  unfold bdLocalStage at h
  by_cases he : (deleteLocalBranches e.failsSafe selected).2.2.isEmpty = true
  · rw [if_pos he] at h
    rw [deleteLocalBranches_trace] at h
    rcases List.mem_map.mp h with ⟨b, hb, rfl⟩
    exact ⟨b, hb, Or.inl rfl⟩
  · rw [if_neg he] at h
    by_cases hf : e.force = true
    · rw [if_pos hf] at h
      rcases List.mem_append.mp h with h | h
      · rw [deleteLocalBranches_trace] at h
        rcases List.mem_map.mp h with ⟨b, hb, rfl⟩
        exact ⟨b, hb, Or.inl rfl⟩
      · rw [forceDeleteLocalBranches_trace] at h
        rcases List.mem_map.mp h with ⟨b, hb, rfl⟩
        exact ⟨b, deleteLocalBranches_fail_subset e.failsSafe selected b hb, Or.inr rfl⟩
    · rw [if_neg hf] at h
      rw [deleteLocalBranches_trace] at h
      rcases List.mem_map.mp h with ⟨b, hb, rfl⟩
      exact ⟨b, hb, Or.inl rfl⟩

theorem bdRemoteSelect_trace (e : BdEnv) (uniq : List String) :
    ∀ args ∈ (bdRemoteSelect e uniq).1, ∃ rest, args = "push" :: rest := by
  intro args h
  unfold bdRemoteSelect at h
  cases hr : e.remoteSelection with
  | none => simp [hr] at h
  | some rsel0 =>
      simp only [hr] at h
      split at h
      · simp at h
      · exact deleteRemoteBranches_trace_push _ _ args h

theorem bdRemoteStage_trace (e : BdEnv) (deletedLocal : List String) :
    ∀ args ∈ (bdRemoteStage e deletedLocal).1, ∃ rest, args = "push" :: rest := by
  intro args h
  simp only [bdRemoteStage] at h
  split at h
  · simp at h
  · exact bdRemoteSelect_trace _ _ args h

theorem bdSelected_subset (lb : List String) (sel0 : List String)
    (hsel : ∀ x ∈ sel0, x = "__all__" ∨ x ∈ lb) :
    ∀ x ∈ bdSelected lb sel0, x ∈ lb := by
  intro x hx
  unfold bdSelected at hx
  split at hx
  · exact hx
  · rcases List.mem_filter.mp hx with ⟨hmem, hne⟩
    rcases hsel x hmem with h | h
    · simp [h] at hne
    · exact h

theorem bdAfterSelection_branch_ne (e : BdEnv) (lb sel0 : List String)
    (hsub : ∀ x ∈ bdSelected lb sel0, x ∈ lb)
    (hlb : ∀ x ∈ lb, x ≠ e.current) :
    ∀ args ∈ (bdAfterSelection e lb sel0).trace, ∀ flag b,
      args = ["branch", flag, b] → b ≠ e.current := by
  intro args hargs flag b heq
  have hlocal : ∀ a ∈ (bdLocalStage e (bdSelected lb sel0)).1,
      a = ["branch", flag, b] → b ≠ e.current := by
    intro a ha he'
    rcases bdLocalStage_trace e _ a ha with ⟨b', hb', hcase⟩
    have hb'' : b' ≠ e.current := hlb b' (hsub b' hb')
    rcases hcase with h | h <;>
    · rw [he'] at h
      injection h with _ h'
      injection h' with _ h''
      injection h'' with h3 _
      rw [h3]
      exact hb''
  have hrem : ∀ a ∈ (bdRemoteStage e (bdLocalStage e (bdSelected lb sel0)).2).1,
      a = ["branch", flag, b] → False := by
    intro a ha he'
    rcases bdRemoteStage_trace e _ a ha with ⟨rest, hr⟩
    rw [he'] at hr
    injection hr with hhead _
    simp at hhead
  simp only [bdAfterSelection] at hargs
  split_ifs at hargs <;>
    first
      | exact hlocal args hargs heq
      | exact (List.mem_append.mp hargs).elim (fun h => hlocal args h heq)
          (fun h => (hrem args h heq).elim)
      | simp at hargs

theorem bdMain_branch_ne (e : BdEnv)
    (hsel : ∀ sel0, e.selection = some sel0 →
      ∀ x ∈ sel0, x = "__all__" ∨ x ∈ bdCandidates e) :
    ∀ args ∈ (bdMain e).trace, ∀ flag b,
      args = ["branch", flag, b] → b ≠ e.current := by
  have hcand : ∀ x ∈ bdCandidates e, x ≠ e.current := by
    intro x hx
    rcases List.mem_filter.mp hx with ⟨_, hne⟩
    simpa using hne
  intro args hargs flag b heq
  unfold bdMain at hargs
  cases hsel0 : e.selection with
  | none =>
      simp only [hsel0] at hargs
      split at hargs <;> simp at hargs
  | some sel0 =>
      simp only [hsel0] at hargs
      split at hargs
      · simp at hargs
      · exact bdAfterSelection_branch_ne e (bdCandidates e) sel0
          (bdSelected_subset _ _ (hsel sel0 hsel0)) hcand args hargs flag b heq

/-- C10: in the branch-deletion tool, for every selection drawn from the
offered candidates (which exclude the current branch), neither
`git branch -d` nor `git branch -D` is ever invoked with the current
branch's name. -/
theorem claim_C10 (e : BdEnv)
    (hsel : ∀ sel0, e.selection = some sel0 →
      ∀ x ∈ sel0, x = "__all__" ∨ x ∈ bdCandidates e) :
    ["branch", "-d", e.current] ∉ (bdMain e).trace ∧
    ["branch", "-D", e.current] ∉ (bdMain e).trace := by
  constructor <;>
  · intro hmem
    exact bdMain_branch_ne e hsel _ hmem _ e.current rfl rfl

/-- Witness for C10: current branch `main`, candidates `dev`, `feat`,
select-all, safe deletion of `dev` fails and is force-deleted; no branch
delete command names `main`. -/
theorem claim_C10_witness :
    ["branch", "-d", "main"] ∉ (bdMain ⟨"main", ["main", "dev", "feat"],
        some ["__all__"], true, fun b => b == "dev", true, fun _ => false,
        false, [], none, fun _ => false⟩).trace ∧
    ["branch", "-D", "main"] ∉ (bdMain ⟨"main", ["main", "dev", "feat"],
        some ["__all__"], true, fun b => b == "dev", true, fun _ => false,
        false, [], none, fun _ => false⟩).trace := by
  exact claim_C10 ⟨"main", ["main", "dev", "feat"], some ["__all__"], true,
    fun b => b == "dev", true, fun _ => false, false, [], none, fun _ => false⟩
    (by
      intro sel0 h x hx
      injection h with h'
      subst h'
      exact Or.inl (by simpa using hx))

/-! ## `stash.js` stash manager -/

/-- `src/scripts/stash.js` `getWorkingStatus` (lines 37-51): counts of
modified, staged and untracked files. -/
structure WorkingStatus where
  modified : Nat
  staged : Nat
  untracked : Nat
  deriving Repr, DecidableEq

/-- The three inspection queries `getWorkingStatus` runs. -/
def workingStatusQueries : List GitArgs :=
  [["diff", "--name-only"], ["diff", "--cached", "--name-only"],
    ["ls-files", "--others", "--exclude-standard"]]

/-- `src/scripts/stash.js` `hasChanges` (lines 68-72): untracked files do
not count as changes. -/
def hasChanges (s : WorkingStatus) : Bool :=
  s.modified > 0 || s.staged > 0

/-- `src/scripts/stash.js` `getStashList`: one stash entry parsed from a
line of the stash list query. -/
structure StashEntry where
  ref : String
  message : String
  time : String
  deriving Repr, DecidableEq

/-- The stash list query (`src/scripts/stash.js` line 56). -/
def stashListQuery : GitArgs := ["stash", "list", "--pretty=format:%gd|%s|%cr"]

/-- Outcome of one `stash.js` sub-flow: the git trace, the stash counts the
flow displays from a post-mutation re-query, and whether the flow's mutating
command was issued. -/
structure StashFlowOut where
  trace : List GitArgs
  countsShown : List Nat
  mutated : Bool
  deriving Repr, DecidableEq

/-- `src/scripts/stash.js` `stashChanges` message validation (line 137):
`value.trim()` is truthy exactly when the value has a non-whitespace
character. -/
def messageNonBlank (value : String) : Bool :=
  value.data.any (fun c => !c.isWhitespace)

/-- `src/scripts/stash.js` `stashChanges` push-variant switch (lines
130-154). -/
def stashPushArgs (option : String) (message : String) : List String :=
  let base := ["stash", "push"]
  if option == "message" then base ++ ["-m", message]
  else if option == "include-untracked" then base ++ ["-u"]
  else if option == "keep-index" then base ++ ["--keep-index"]
  else if option == "all" then base ++ ["-a"]
  else base

/-- `src/scripts/stash.js` `stashChanges` (lines 77-171): inspect the
working status; nothing to stash → return; otherwise choose a push variant
(`option`), read a non-empty message when the variant requires one
(re-prompting on blank input), push, and on success re-query the stash list
(`listAfter` is the environment's answer) and display its length. -/
def stashChanges (status : WorkingStatus) (option : String)
    (messageAttempts : List String) (pushSucceeds : Bool)
    (listAfter : List StashEntry) : StashFlowOut :=
  if status.modified == 0 && status.staged == 0 then
    ⟨workingStatusQueries, [], false⟩
  else
    match (if option == "message"
           then (inputSession messageNonBlank messageAttempts).2
           else some "") with
    | none => ⟨workingStatusQueries, [], false⟩
    | some m =>
        let args := stashPushArgs option m
        if pushSucceeds then
          ⟨workingStatusQueries ++ [args, stashListQuery], [listAfter.length], true⟩
        else ⟨workingStatusQueries ++ [args], [], true⟩

/-- `src/scripts/stash.js` `popStash` (lines 277-306): when the working tree
is dirty, warn and require a confirmation; pop; on success re-query the
stash list and display the remaining count, on failure print a conflict
hint without re-querying. -/
def popStash (status : WorkingStatus) (confirmDirty : Bool) (stashRef : String)
    (popSucceeds : Bool) (listAfter : List StashEntry) : StashFlowOut :=
  if hasChanges status && !confirmDirty then ⟨workingStatusQueries, [], false⟩
  else if popSucceeds then
    ⟨workingStatusQueries ++ [["stash", "pop", stashRef], stashListQuery],
      [listAfter.length], true⟩
  else ⟨workingStatusQueries ++ [["stash", "pop", stashRef]], [], true⟩

/-- `src/scripts/stash.js` `applyStash` (lines 309-335): same dirty-tree
confirmation, then apply; no stash count is displayed (apply keeps the
list). -/
def applyStash (status : WorkingStatus) (confirmDirty : Bool) (stashRef : String)
    (_applySucceeds : Bool) : StashFlowOut :=
  if hasChanges status && !confirmDirty then ⟨workingStatusQueries, [], false⟩
  else ⟨workingStatusQueries ++ [["stash", "apply", stashRef]], [], true⟩

/-- `src/scripts/stash.js` `dropStash` (lines 361-389): show the entry (a
`git stash list`-based lookup), confirm, drop; on success re-query the
stash list and display the remaining count. -/
def dropStash (stashRef : String) (confirmed : Bool) (dropSucceeds : Bool)
    (listAfter : List StashEntry) : StashFlowOut :=
  if !confirmed then ⟨[["stash", "list"]], [], false⟩
  else if dropSucceeds then
    ⟨[["stash", "list"], ["stash", "drop", stashRef], stashListQuery],
      [listAfter.length], true⟩
  else ⟨[["stash", "list"], ["stash", "drop", stashRef]], [], true⟩

/-- `src/scripts/stash.js` `clearAllStashes` (lines 392-420): list the
stashes about to be destroyed, require the typed literal "yes"
(re-prompting otherwise), then `git stash clear`.  After the clear, success
or not, no stash-list re-query is issued and no count is displayed. -/
def clearAllStashes (_stashes : List StashEntry) (confirmAttempts : List String)
    (_clearSucceeds : Bool) : StashFlowOut :=
  match (inputSession (fun v => v == "yes") confirmAttempts).2 with
  | none => ⟨[stashListQuery], [], false⟩
  | some _ => ⟨[stashListQuery, ["stash", "clear"]], [], true⟩

/-- C8 counterexample: after a confirmed, successful `clear all` the trace
ends with the mutating `git stash clear` — the stash list is not re-queried
afterwards and no updated count is displayed, so "after every mutating
sub-operation (push, pop, drop, clear) the updated stash count is
displayed" fails at the clear sub-operation. -/
theorem claim_C8_counterexample :
    (clearAllStashes [⟨"stash@\x7b0\x7d", "wip", "1 hour ago"⟩] ["yes"] true).trace =
      [stashListQuery, ["stash", "clear"]] ∧
    isMutating ["stash", "clear"] = true ∧
    (clearAllStashes [⟨"stash@\x7b0\x7d", "wip", "1 hour ago"⟩] ["yes"] true).mutated
      = true ∧
    (clearAllStashes [⟨"stash@\x7b0\x7d", "wip", "1 hour ago"⟩] ["yes"] true).countsShown
      = [] := by
  refine ⟨rfl, rfl, rfl, rfl⟩

/-- C8 (amended): after a successful stash push, pop or drop the stash list
is re-queried after the mutating command and the freshly queried count is
the one displayed (never a stale value); after clear, no count is
displayed at all. -/
theorem claim_C8 (status status2 : WorkingStatus) (option m : String)
    (confirmDirty : Bool) (ref ref2 : String)
    (la1 la2 la3 : List StashEntry)
    (stashes : List StashEntry) (clearAttempts : List String)
    (h1 : (status.modified == 0 && status.staged == 0) = false)
    (h2 : messageNonBlank m = true)
    (h3 : (hasChanges status2 && !confirmDirty) = false) :
    ((stashChanges status option [m] true la1).countsShown = [la1.length] ∧
      (stashChanges status option [m] true la1).trace =
        workingStatusQueries ++
          [stashPushArgs option (if option == "message" then m else ""),
            stashListQuery]) ∧
    ((popStash status2 confirmDirty ref true la2).countsShown = [la2.length] ∧
      (popStash status2 confirmDirty ref true la2).trace =
        workingStatusQueries ++ [["stash", "pop", ref], stashListQuery]) ∧
    ((dropStash ref2 true true la3).countsShown = [la3.length] ∧
      (dropStash ref2 true true la3).trace =
        [["stash", "list"], ["stash", "drop", ref2], stashListQuery]) ∧
    (clearAllStashes stashes clearAttempts true).countsShown = [] := by
  refine ⟨?_, ?_, ?_, ?_⟩
  · by_cases ho : (option == "message") = true <;>
      simp [stashChanges, h1, h2, ho, inputSession]
  · constructor <;> simp [popStash, h3]
  · constructor <;> simp [dropStash]
  · unfold clearAllStashes
    cases (inputSession (fun v => v == "yes") clearAttempts).2 <;> simp

/-- Witness for the amended C8: concrete dirty status, message "foo",
clean-tree pop, confirmed drop, confirmed clear. -/
theorem claim_C8_witness :
    ((stashChanges ⟨1, 0, 0⟩ "message" ["foo"] true [⟨"s0", "foo", "now"⟩]).countsShown
        = [1] ∧
      (stashChanges ⟨1, 0, 0⟩ "message" ["foo"] true [⟨"s0", "foo", "now"⟩]).trace =
        workingStatusQueries ++
          [stashPushArgs "message" (if ("message" == "message") = true then "foo" else ""),
            stashListQuery]) ∧
    ((popStash ⟨0, 0, 0⟩ false "s0" true []).countsShown = [0] ∧
      (popStash ⟨0, 0, 0⟩ false "s0" true []).trace =
        workingStatusQueries ++ [["stash", "pop", "s0"], stashListQuery]) ∧
    ((dropStash "s1" true true []).countsShown = [0] ∧
      (dropStash "s1" true true []).trace =
        [["stash", "list"], ["stash", "drop", "s1"], stashListQuery]) ∧
    (clearAllStashes [] ["yes"] true).countsShown = [] := by
  exact claim_C8 ⟨1, 0, 0⟩ ⟨0, 0, 0⟩ "message" "foo" false "s0" "s1"
    [⟨"s0", "foo", "now"⟩] [] [] [] ["yes"] (by decide) (by decide) (by decide)

/-- `src/scripts/stash.js` `main` menu construction (lines 477-498): the
dynamic entries, chosen from the repository state. -/
def stashMenuChoices (status : WorkingStatus) (stashes : List StashEntry) :
    List String :=
  (if hasChanges status then ["stash"] else []) ++
    (if stashes.length > 0 then ["manage", "list"] else [])

/-- `src/scripts/stash.js` `main` around the menu (lines 477-515). -/
structure StashMainOut where
  promptShown : Bool
  menu : List String
  nothingToDo : Bool
  deriving Repr, DecidableEq

/-- `src/scripts/stash.js` `main` (lines 500-515): with no dynamic entry,
report nothing-to-do and return without rendering the `Select`; otherwise
append the exit entry and render the menu. -/
def stashMain (status : WorkingStatus) (stashes : List StashEntry) : StashMainOut :=
  let choices := stashMenuChoices status stashes
  if choices.isEmpty then ⟨false, [], true⟩
  else ⟨true, choices ++ ["cancel"], false⟩

/-- C9: the stash tool's menu contains "stash" exactly when there are
changes to stash, "manage" and "list" exactly when at least one stash
exists; the prompt is rendered exactly when some entry exists, and
otherwise the tool reports nothing to do without prompting. -/
theorem claim_C9 (status : WorkingStatus) (stashes : List StashEntry) :
    ((stashMain status stashes).menu.contains "stash") = hasChanges status ∧
    ((stashMain status stashes).menu.contains "manage") = !stashes.isEmpty ∧
    ((stashMain status stashes).menu.contains "list") = !stashes.isEmpty ∧
    (stashMain status stashes).promptShown =
      (hasChanges status || !stashes.isEmpty) ∧
    (stashMain status stashes).nothingToDo =
      !(hasChanges status || !stashes.isEmpty) := by
  cases hc : hasChanges status <;> cases stashes <;>
    simp [stashMain, stashMenuChoices, hc]

/-! ## Startup repository probe of every tool -/

/-- The environment-error message shared by `res.js` (line 498), `stash.js`
(line 450), `bd.js` (line 111), `p.js`/`b.js` (pull and branch tools),
`push.js`, `l.js` and `ck.js` (line 52). -/
def repoErrMsg : String := "❌ 当前目录不是 Git 仓库，请先进入一个仓库目录。"

/-- `gcb.js` (clipboard tool) prints a different message (its line 92). -/
def gcbErrMsg : String :=
  "错误：当前目录不是 git 仓库，或 git 命令执行失败。请在一个 git 仓库目录下运行此命令。"

/-- What a tool's startup does, as a function of whether the repository
probe succeeds: the error message it prints, whether it exits the process
with code 1 right there, and whether it proceeds into its interactive
flow / main work. -/
structure StartupOut where
  msg : Option String
  exit1 : Bool
  proceeds : Bool
  deriving Repr, DecidableEq

/-- `src/scripts/res.js` `main` lines 495-500: probe, report, exit 1 before
building any prompt. -/
def resStartup (isRepo : Bool) : StartupOut :=
  if isRepo then ⟨none, false, true⟩ else ⟨some repoErrMsg, true, false⟩

/-- `src/scripts/stash.js` `main` lines 448-452: identical probe. -/
def stashStartup (isRepo : Bool) : StartupOut :=
  if isRepo then ⟨none, false, true⟩ else ⟨some repoErrMsg, true, false⟩

/-- `src/scripts/bd.js` `main` lines 107-113: the probe throws, the catch
reports and exits 1 before any prompt. -/
def bdStartup (isRepo : Bool) : StartupOut :=
  if isRepo then ⟨none, false, true⟩ else ⟨some repoErrMsg, true, false⟩

/-- `src/scripts/p.js` (pull) lines 15-19. -/
def pStartup (isRepo : Bool) : StartupOut :=
  if isRepo then ⟨none, false, true⟩ else ⟨some repoErrMsg, true, false⟩

/-- `b.js` (branch listing, second file of `src/scripts/p.js`) same probe. -/
def bStartup (isRepo : Bool) : StartupOut :=
  if isRepo then ⟨none, false, true⟩ else ⟨some repoErrMsg, true, false⟩

/-- `src/scripts/push.js` lines 24-28. -/
def pushStartup (isRepo : Bool) : StartupOut :=
  if isRepo then ⟨none, false, true⟩ else ⟨some repoErrMsg, true, false⟩

/-- `l.js` (log tool, first file of `src/unnamed/part_002`) lines 15-19. -/
def lStartup (isRepo : Bool) : StartupOut :=
  if isRepo then ⟨none, false, true⟩ else ⟨some repoErrMsg, true, false⟩

/-- `ck.js` (`src/unnamed/part_001`) without arguments, lines 49-54:
`getBranches` returns null outside a repository; same message, exit 1. -/
def ckInteractiveStartup (isRepo : Bool) : StartupOut :=
  if isRepo then ⟨none, false, true⟩ else ⟨some repoErrMsg, true, false⟩

/-- `gcb.js` (clipboard tool, second file of `src/unnamed/part_002`) lines
89-94: probe via `getBranches`, but a different message. -/
def gcbStartup (isRepo : Bool) : StartupOut :=
  if isRepo then ⟨none, false, true⟩ else ⟨some gcbErrMsg, true, false⟩

/-- `ck.js` invoked with an argument (lines 104-110): no repository probe
at all — `createAndSwitch` runs `git checkout -b` directly and, when it
fails, prints a failure message without calling `process.exit`. -/
def ckCreateStartup (_isRepo : Bool) : StartupOut := ⟨none, false, true⟩

/-- `s` (npm-script runner, `src/unnamed/part_000`): probes `package.json`,
never the git repository; with scripts present it renders its `Select`
regardless of the repository. -/
def sStartup (_isRepo hasPkg hasScripts : Bool) : StartupOut :=
  if !hasPkg then ⟨some "❌ 当前目录没有 package.json", true, false⟩
  else if !hasScripts then ⟨some "⚠️ 没有找到任何 npm scripts", false, false⟩
  else ⟨none, false, true⟩

/-- `src/scripts/h.js`: no repository probe, prints the command table. -/
def hStartup (_isRepo : Bool) : StartupOut := ⟨none, false, true⟩

/-- C2 counterexample: outside a git repository the clipboard tool prints a
different message than the reset tool, ck invoked with an argument does not
exit at all, and the npm-script runner still renders its prompt — so "every
tool exits 1 with the same message before any prompt" is false. -/
theorem claim_C2_counterexample :
    (gcbStartup false).msg = some gcbErrMsg ∧
    (resStartup false).msg = some repoErrMsg ∧
    gcbErrMsg ≠ repoErrMsg ∧
    (ckCreateStartup false).exit1 = false ∧
    (sStartup false true true).proceeds = true := by
  refine ⟨rfl, rfl, by decide, rfl, rfl⟩

/-- C2 (amended): every tool that probes the repository — res, stash, bd,
pull, branch listing, push, log, and ck without arguments — exits 1 with
the identical environment-error message before rendering any prompt; the
clipboard tool also exits 1 before prompting but with a different message;
ck with an argument, the npm-script runner and the help tool perform no
repository probe (the npm-script runner renders its prompt regardless). -/
theorem claim_C2 :
    resStartup false = ⟨some repoErrMsg, true, false⟩ ∧
    stashStartup false = ⟨some repoErrMsg, true, false⟩ ∧
    bdStartup false = ⟨some repoErrMsg, true, false⟩ ∧
    pStartup false = ⟨some repoErrMsg, true, false⟩ ∧
    bStartup false = ⟨some repoErrMsg, true, false⟩ ∧
    pushStartup false = ⟨some repoErrMsg, true, false⟩ ∧
    lStartup false = ⟨some repoErrMsg, true, false⟩ ∧
    ckInteractiveStartup false = ⟨some repoErrMsg, true, false⟩ ∧
    gcbStartup false = ⟨some gcbErrMsg, true, false⟩ ∧
    gcbErrMsg ≠ repoErrMsg ∧
    ckCreateStartup false = ⟨none, false, true⟩ ∧
    sStartup false true true = ⟨none, false, true⟩ ∧
    hStartup false = ⟨none, false, true⟩ := by
  refine ⟨rfl, rfl, rfl, rfl, rfl, rfl, rfl, rfl, rfl, by decide, rfl, rfl, rfl⟩

/-! ## Cancellation semantics (C3) -/

/-- A run of the rewind flow never executes the reset when it does not
complete (the operator cancelled a validated input), and up to that point
only inspection queries were issued. -/
theorem resetCommits_cancelled_no_mutation (s : ResetCommitsSession)
    (h : (resetCommits s).completed = false) :
    (resetCommits s).trace.filter isMutating = [] := by
  unfold resetCommits at h ⊢
  cases hcount : (if s.countChoice == "custom"
      then (inputSession validateCustomCount s.customAttempts).2
      else some s.countChoice) with
  | none => simp
  | some c =>
      rw [hcount] at h
      by_cases hb : (hardConfirm s.mode s.hardConfirmAttempts).2 = true
      · simp [hb] at h
      · simp [hb, isMutating_log]

/-- How one interactive flow run ends: it returned normally, it called
`process.exit(1)` from inside (a failed mutation), or the operator
interrupted a prompt and the rejection unwinds to the top-level catch. -/
inductive FlowOutcome where
  | done
  | failed
  | cancelled
  deriving Repr, DecidableEq

/-- Trace, exit code and the messages printed by a tool's top-level
catch / exit path (flow-internal messages are not collected here). -/
structure CliRun where
  trace : List GitArgs
  exitCode : Nat
  msgs : List String
  deriving Repr, DecidableEq

/-- The rewind flow's prompts with the operator free to interrupt each one:
`none` for an interrupted `Select`, an exhausted attempt list for an
interrupted validated `Input`. -/
structure RewindPrompts where
  countChoice : Option String
  customAttempts : List String
  mode : Option ResetMode
  hardConfirmAttempts : List String
  resetSucceeds : Bool

/-- `src/scripts/res.js` `resetCommits` (lines 145-242) with interrupt
points; once both `Select`s are answered it is exactly `resetCommits`.  A
flow that never executed the reset because a validated input was abandoned
is `cancelled`; an executed reset yields `done` or, on non-zero exit
(line 240, `process.exit(1)`), `failed`. -/
def resetCommitsFlow (p : RewindPrompts) : List GitArgs × FlowOutcome :=
  match p.countChoice with
  | none => ([], FlowOutcome.cancelled)
  | some c0 =>
      match p.mode with
      | some m =>
          let r := resetCommits
            ⟨c0, p.customAttempts, m, p.hardConfirmAttempts, p.resetSucceeds⟩
          (r.trace,
            if r.completed then
              (if p.resetSucceeds then FlowOutcome.done else FlowOutcome.failed)
            else FlowOutcome.cancelled)
      | none =>
          match (if c0 == "custom"
                 then (inputSession validateCustomCount p.customAttempts).2
                 else some c0) with
          | none => ([], FlowOutcome.cancelled)
          | some countStr =>
              ([["log", "-" ++ toString ((parseIntJS countStr).getD 0),
                  "--pretty=format:%H|%h|%s|%ar|%an"]], FlowOutcome.cancelled)

/-- `src/scripts/res.js` `unstageFiles` (lines 245-298) with the
`MultiSelect` interruptible; per-file failures never exit the process, so an
answered selection always ends `done`. -/
def unstageFilesFlow (staged : List StagedFile) (selected : Option (List String))
    (fails : String → Bool) : List GitArgs × FlowOutcome :=
  if staged.isEmpty then ([["diff", "--cached", "--name-status"]], FlowOutcome.done)
  else
    match selected with
    | none => ([["diff", "--cached", "--name-status"]], FlowOutcome.cancelled)
    | some sel => ((unstageFiles staged sel fails).trace, FlowOutcome.done)

/-- `src/scripts/res.js` `resetToRemote` (lines 301-381) with the mode
`Select` and the `Confirm` interruptible; a declined confirm returns
normally, an executed reset that fails exits 1 (line 379). -/
def resetToRemoteFlow (info? : Option RemoteInfo) (aheadStr behindStr : String)
    (aheadLines behindLines : List String) (mode : Option ResetMode)
    (confirmed : Option Bool) (resetSucceeds : Bool) : List GitArgs × FlowOutcome :=
  match info? with
  | none => ([], FlowOutcome.done)
  | some info =>
      let r := getRemoteDiff (some info) aheadStr behindStr aheadLines behindLines
      match r.2 with
      | none => (r.1, FlowOutcome.done)
      | some diff =>
          if diff.ahead == 0 && diff.behind == 0 then (r.1, FlowOutcome.done)
          else
            match mode with
            | none => (r.1, FlowOutcome.cancelled)
            | some m =>
                match confirmed with
                | none => (r.1, FlowOutcome.cancelled)
                | some c =>
                    if c then
                      (r.1 ++ [["reset", m.flag, info.fullRemote]],
                        if resetSucceeds then FlowOutcome.done else FlowOutcome.failed)
                    else (r.1, FlowOutcome.done)

/-- Prompts and environment answers of `src/scripts/res.js` `resetToCommit`
(lines 384-491). -/
structure PickCommitPrompts where
  /-- answer to the list-or-manual `Select`; `none` = interrupted -/
  method : Option String
  /-- short hash picked from the commit `Select`; `none` = interrupted -/
  listPick : Option String
  /-- answers typed at the hash `Input` (validated: at least 6 characters) -/
  hashAttempts : List String
  /-- the `git log -1 <hash>` validation lookup succeeded -/
  hashLookupOk : Bool
  /-- short hash parsed from that lookup's output -/
  lookedUpShort : String
  mode : Option ResetMode
  confirmed : Option Bool
  resetSucceeds : Bool

/-- Tail of `resetToCommit` after the target commit resolved: mode `Select`,
`Confirm`, then the reset (failure exits 1, line 489). -/
def resetToCommitTail (p : PickCommitPrompts) (t : List GitArgs) (short : String) :
    List GitArgs × FlowOutcome :=
  match p.mode with
  | none => (t, FlowOutcome.cancelled)
  | some m =>
      match p.confirmed with
      | none => (t, FlowOutcome.cancelled)
      | some c =>
          if c then
            (t ++ [["reset", m.flag, short]],
              if p.resetSucceeds then FlowOutcome.done else FlowOutcome.failed)
          else (t, FlowOutcome.done)

/-- `src/scripts/res.js` `resetToCommit` (lines 384-491): list the last 10
commits, pick one from the list or type a hash (validated, then looked up
with `git log -1`; an invalid hash reports and returns), then mode,
confirmation and the reset. -/
def resetToCommitFlow (p : PickCommitPrompts) : List GitArgs × FlowOutcome :=
  let t0 : List GitArgs := [["log", "-10", "--pretty=format:%H|%h|%s|%ar|%an"]]
  match p.method with
  | none => (t0, FlowOutcome.cancelled)
  | some method =>
      if method == "list" then
        match p.listPick with
        | none => (t0, FlowOutcome.cancelled)
        | some h => resetToCommitTail p t0 h
      else
        match (inputSession (fun v => 6 ≤ v.length) p.hashAttempts).2 with
        | none => (t0, FlowOutcome.cancelled)
        | some h =>
            let t1 := t0 ++ [["log", "-1", h, "--pretty=format:%H|%h|%s|%ar|%an"]]
            if p.hashLookupOk then resetToCommitTail p t1 p.lookedUpShort
            else (t1, FlowOutcome.done)

/-- Environment and operator answers for one run of `res.js` `main`
(lines 495-562). -/
structure ResMainEnv where
  /-- answer to the main-menu `Select`; `none` = interrupted -/
  action : Option String
  rewind : RewindPrompts
  stagedFiles : List StagedFile
  unstageSelected : Option (List String)
  unstageFails : String → Bool
  remoteInfo : Option RemoteInfo
  aheadStr : String
  behindStr : String
  aheadLines : List String
  behindLines : List String
  syncMode : Option ResetMode
  syncConfirmed : Option Bool
  syncResetSucceeds : Bool
  pick : PickCommitPrompts

/-- `src/scripts/res.js` `main`'s switch (lines 535-551). -/
def resDispatch (e : ResMainEnv) (a : String) : List GitArgs × FlowOutcome :=
  if a == "resetCommits" then resetCommitsFlow e.rewind
  else if a == "unstageFiles" then
    unstageFilesFlow e.stagedFiles e.unstageSelected e.unstageFails
  else if a == "resetToRemote" then
    resetToRemoteFlow e.remoteInfo e.aheadStr e.behindStr e.aheadLines
      e.behindLines e.syncMode e.syncConfirmed e.syncResetSucceeds
  else if a == "resetToCommit" then resetToCommitFlow e.pick
  else ([], FlowOutcome.done)

/-- `src/scripts/res.js` `main` (lines 495-562): dispatch the chosen flow;
a prompt rejection (empty string) reaches the catch (lines 552-556), which
prints 已取消操作 and exits 0; a flow that exited 1 from inside stays 1;
otherwise the process ends with code 0. -/
def resMain (e : ResMainEnv) : CliRun :=
  match e.action with
  | none => ⟨[], 0, ["已取消操作"]⟩
  | some a =>
      let r := resDispatch e a
      match r.2 with
      | FlowOutcome.cancelled => ⟨r.1, 0, ["已取消操作"]⟩
      | FlowOutcome.failed => ⟨r.1, 1, []⟩
      | FlowOutcome.done => ⟨r.1, 0, []⟩

/-- The operator cancelled some prompt of this `res.js` run. -/
def resCancelled (e : ResMainEnv) : Bool :=
  match e.action with
  | none => true
  | some a => decide ((resDispatch e a).2 = FlowOutcome.cancelled)

/-- The trace of `getRemoteDiff` holds only inspection queries. -/
theorem getRemoteDiff_no_mutation (info? : Option RemoteInfo)
    (aheadStr behindStr : String) (aheadLines behindLines : List String) :
    ((getRemoteDiff info? aheadStr behindStr aheadLines behindLines).1).filter
      isMutating = [] := by
  cases info? with
  | none => rfl
  | some info =>
      simp only [getRemoteDiff]
      cases h1 : aheadStr == "" <;> cases h2 : behindStr == "" <;>
        simp [isMutating_fetch, isMutating_revList, isMutating_log, List.filter]

theorem resetCommitsFlow_cancelled (p : RewindPrompts)
    (h : (resetCommitsFlow p).2 = FlowOutcome.cancelled) :
    (resetCommitsFlow p).1.filter isMutating = [] := by
  obtain ⟨cc, ca, m, ha, rs⟩ := p
  cases cc with
  | none => rfl
  | some c0 =>
      cases m with
      | some mv =>
          by_cases hcomp : (resetCommits ⟨c0, ca, mv, ha, rs⟩).completed = true
          · cases rs <;> simp [resetCommitsFlow, hcomp] at h
          · have hfalse : (resetCommits ⟨c0, ca, mv, ha, rs⟩).completed = false := by
              cases hx : (resetCommits ⟨c0, ca, mv, ha, rs⟩).completed
              · rfl
              · exact absurd hx hcomp
            simpa [resetCommitsFlow] using
              resetCommits_cancelled_no_mutation _ hfalse
      | none =>
          by_cases hcu : c0 = "custom"
          · subst hcu
            cases hin : (inputSession validateCustomCount ca).2 with
            | none => simp [resetCommitsFlow, hin]
            | some countStr => simp [resetCommitsFlow, hin, isMutating_log]
          · simp [resetCommitsFlow, hcu, isMutating_log]

theorem unstageFilesFlow_cancelled (staged : List StagedFile)
    (selected : Option (List String)) (fails : String → Bool)
    (h : (unstageFilesFlow staged selected fails).2 = FlowOutcome.cancelled) :
    (unstageFilesFlow staged selected fails).1.filter isMutating = [] := by
  unfold unstageFilesFlow at h ⊢
  by_cases he : staged.isEmpty = true
  · rw [if_pos he] at h
    simp at h
  · rw [if_neg he] at h ⊢
    cases selected with
    | none => rfl
    | some sel => simp at h

theorem resetToRemoteFlow_cancelled (info? : Option RemoteInfo)
    (aheadStr behindStr : String) (aheadLines behindLines : List String)
    (mode : Option ResetMode) (confirmed : Option Bool) (resetSucceeds : Bool)
    (h : (resetToRemoteFlow info? aheadStr behindStr aheadLines behindLines
        mode confirmed resetSucceeds).2 = FlowOutcome.cancelled) :
    (resetToRemoteFlow info? aheadStr behindStr aheadLines behindLines
        mode confirmed resetSucceeds).1.filter isMutating = [] := by
  cases info? with
  | none => rfl
  | some info =>
      cases hd : (getRemoteDiff (some info) aheadStr behindStr aheadLines
          behindLines).2 with
      | none => simp [resetToRemoteFlow, hd] at h
      | some diff =>
          by_cases hsync : diff.ahead = 0 ∧ diff.behind = 0
          · simp [resetToRemoteFlow, hd, hsync.1, hsync.2] at h
          · cases mode with
            | none =>
                simp [resetToRemoteFlow, hd, hsync, getRemoteDiff_no_mutation]
            | some mv =>
                cases confirmed with
                | none =>
                    simp [resetToRemoteFlow, hd, hsync, getRemoteDiff_no_mutation]
                | some c =>
                    cases c with
                    | false => simp [resetToRemoteFlow, hd, hsync] at h
                    | true =>
                        cases resetSucceeds <;>
                          simp [resetToRemoteFlow, hd, hsync] at h

theorem resetToCommitTail_cancelled (p : PickCommitPrompts) (t : List GitArgs)
    (short : String)
    (h : (resetToCommitTail p t short).2 = FlowOutcome.cancelled) :
    (resetToCommitTail p t short).1 = t := by
  obtain ⟨mth, lp, hats, hok, lus, md, cf, rs⟩ := p
  cases md with
  | none => rfl
  | some mv =>
      cases cf with
      | none => rfl
      | some c =>
          cases c with
          | false => simp [resetToCommitTail] at h
          | true => cases rs <;> simp [resetToCommitTail] at h

theorem resetToCommitFlow_cancelled (p : PickCommitPrompts)
    (h : (resetToCommitFlow p).2 = FlowOutcome.cancelled) :
    (resetToCommitFlow p).1.filter isMutating = [] := by
  obtain ⟨mth, lp, hats, hok, lus, md, cf, rs⟩ := p
  cases mth with
  | none => rfl
  | some method =>
      by_cases hm : method = "list"
      · subst hm
        cases lp with
        | none => simp [resetToCommitFlow, isMutating_log]
        | some hsh =>
            have h' : (resetToCommitTail
                ⟨some "list", some hsh, hats, hok, lus, md, cf, rs⟩
                [["log", "-10", "--pretty=format:%H|%h|%s|%ar|%an"]] hsh).2 =
                FlowOutcome.cancelled := by
              simpa [resetToCommitFlow] using h
            have e := resetToCommitTail_cancelled _ _ _ h'
            simp [resetToCommitFlow, e, isMutating_log]
      · cases hin : (inputSession (fun v => 6 ≤ v.length) hats).2 with
        | none => simp [resetToCommitFlow, hm, hin, isMutating_log]
        | some hsh =>
            cases hok with
            | false => simp [resetToCommitFlow, hm, hin] at h
            | true =>
                have h' : (resetToCommitTail
                    ⟨some method, lp, hats, true, lus, md, cf, rs⟩
                    [["log", "-10", "--pretty=format:%H|%h|%s|%ar|%an"],
                      ["log", "-1", hsh, "--pretty=format:%H|%h|%s|%ar|%an"]]
                    lus).2 = FlowOutcome.cancelled := by
                  simpa [resetToCommitFlow, hm, hin] using h
                have e := resetToCommitTail_cancelled _ _ _ h'
                simp [resetToCommitFlow, hm, hin, e, isMutating_log]

theorem resDispatch_cancelled (e : ResMainEnv) (a : String)
    (h : (resDispatch e a).2 = FlowOutcome.cancelled) :
    (resDispatch e a).1.filter isMutating = [] := by
  by_cases h1 : a = "resetCommits"
  · have hf := resetCommitsFlow_cancelled e.rewind
      (by simpa [resDispatch, h1] using h)
    simpa [resDispatch, h1] using hf
  · by_cases h2 : a = "unstageFiles"
    · have hf := unstageFilesFlow_cancelled e.stagedFiles e.unstageSelected
        e.unstageFails (by simpa [resDispatch, h1, h2] using h)
      simpa [resDispatch, h1, h2] using hf
    · by_cases h3 : a = "resetToRemote"
      · have hf := resetToRemoteFlow_cancelled e.remoteInfo e.aheadStr
          e.behindStr e.aheadLines e.behindLines e.syncMode e.syncConfirmed
          e.syncResetSucceeds (by simpa [resDispatch, h1, h2, h3] using h)
        simpa [resDispatch, h1, h2, h3] using hf
      · by_cases h4 : a = "resetToCommit"
        · have hf := resetToCommitFlow_cancelled e.pick
            (by simpa [resDispatch, h1, h2, h3, h4] using h)
          simpa [resDispatch, h1, h2, h3, h4] using hf
        · simp [resDispatch, h1, h2, h3, h4] at h

/-- Any cancellation in a `res.js` run reaches the catch: exit 0, the
cancellation message, and no mutating command ever issued. -/
theorem resMain_cancelled (e : ResMainEnv) (h : resCancelled e = true) :
    (resMain e).exitCode = 0 ∧ (resMain e).msgs = ["已取消操作"] ∧
    (resMain e).trace.filter isMutating = [] := by
  unfold resCancelled at h
  unfold resMain
  cases ha : e.action with
  | none => exact ⟨rfl, rfl, rfl⟩
  | some a =>
      rw [ha] at h
      have h' : (resDispatch e a).2 = FlowOutcome.cancelled := of_decide_eq_true h
      refine ⟨?_, ?_, ?_⟩ <;> simp [h', resDispatch_cancelled e a h']

/-- C3 counterexample: cancelling the branch-deletion tool's first
`MultiSelect` exits with code 1 although no git command at all (mutating or
not) has been issued — exit code 1 on cancellation is not restricted to
flows that already committed mutating steps. -/
theorem claim_C3_counterexample :
    (bdMain ⟨"main", ["main", "dev"], none, true, fun _ => false, false,
        fun _ => false, false, [], none, fun _ => false⟩).exitCode = 1 ∧
    (bdMain ⟨"main", ["main", "dev"], none, true, fun _ => false, false,
        fun _ => false, false, [], none, fun _ => false⟩).trace = [] := by
  refine ⟨rfl, rfl⟩

/-! Cancellation in the stash tool.  Every prompt of every `stash.js`
sub-flow precedes that flow's single mutating command; a rejection unwinds
to the catch at lines 534-538, which prints 已取消操作 and exits 0. -/

/-- One visit of the `operateOnStash` action menu (`src/scripts/stash.js`
lines 219-274): the chosen action (`none` = interrupted) and the answers to
the confirms the actions may raise (`none` = interrupted there). -/
structure StashVisit where
  action : Option String
  dirtyConfirm : Option Bool
  dropConfirm : Option Bool
  showContinue : Option Bool

/-- `src/scripts/stash.js` `popStash` (lines 277-306) with the dirty-tree
`Confirm` interruptible; when the tree is clean no confirm is raised.
Answered runs are exactly `popStash`. -/
def popStashFlow (status : WorkingStatus) (confirmDirty : Option Bool)
    (stashRef : String) (popSucceeds : Bool) (listAfter : List StashEntry) :
    List GitArgs × FlowOutcome :=
  if hasChanges status then
    match confirmDirty with
    | none => (workingStatusQueries, FlowOutcome.cancelled)
    | some c => ((popStash status c stashRef popSucceeds listAfter).trace,
        FlowOutcome.done)
  else ((popStash status true stashRef popSucceeds listAfter).trace,
      FlowOutcome.done)

/-- `src/scripts/stash.js` `applyStash` (lines 309-335) with the dirty-tree
`Confirm` interruptible. -/
def applyStashFlow (status : WorkingStatus) (confirmDirty : Option Bool)
    (stashRef : String) : List GitArgs × FlowOutcome :=
  if hasChanges status then
    match confirmDirty with
    | none => (workingStatusQueries, FlowOutcome.cancelled)
    | some c => ((applyStash status c stashRef true).trace, FlowOutcome.done)
  else ((applyStash status true stashRef true).trace, FlowOutcome.done)

/-- `src/scripts/stash.js` `dropStash` (lines 361-389) with the `Confirm`
interruptible. -/
def dropStashFlow (dropConfirm : Option Bool) (stashRef : String)
    (dropSucceeds : Bool) (listAfter : List StashEntry) :
    List GitArgs × FlowOutcome :=
  match dropConfirm with
  | none => ([["stash", "list"]], FlowOutcome.cancelled)
  | some c => ((dropStash stashRef c dropSucceeds listAfter).trace,
      FlowOutcome.done)

/-- `clearAllStashes` as a flow: an unresolved typed confirmation is the
operator cancelling it. -/
def clearAllStashesFlow (stashes : List StashEntry) (confirmAttempts : List String)
    (clearSucceeds : Bool) : List GitArgs × FlowOutcome :=
  let r := clearAllStashes stashes confirmAttempts clearSucceeds
  (r.trace, if r.mutated then FlowOutcome.done else FlowOutcome.cancelled)

/-- `src/scripts/stash.js` `operateOnStash` (lines 219-274): each visit
looks the stash up in the list, offers pop / apply / show / drop / back;
`show` displays the diff and may loop back into the same menu, consuming
the next visit. -/
def operateOnStash (status : WorkingStatus) (stashRef : String) (succeeds : Bool)
    (listAfter : List StashEntry) : List StashVisit → List GitArgs × FlowOutcome
  | [] => ([], FlowOutcome.cancelled)
  | v :: rest =>
      let t0 : List GitArgs := [["stash", "list"]]
      match v.action with
      | none => (t0, FlowOutcome.cancelled)
      | some a =>
          if a == "cancel" then (t0, FlowOutcome.done)
          else if a == "pop" then
            let r := popStashFlow status v.dirtyConfirm stashRef succeeds listAfter
            (t0 ++ r.1, r.2)
          else if a == "apply" then
            let r := applyStashFlow status v.dirtyConfirm stashRef
            (t0 ++ r.1, r.2)
          else if a == "show" then
            let tshow : List GitArgs := [["stash", "show", "-p", stashRef]]
            match v.showContinue with
            | none => (t0 ++ tshow, FlowOutcome.cancelled)
            | some true =>
                let r := operateOnStash status stashRef succeeds listAfter rest
                (t0 ++ tshow ++ r.1, r.2)
            | some false => (t0 ++ tshow, FlowOutcome.done)
          else if a == "drop" then
            let r := dropStashFlow v.dropConfirm stashRef succeeds listAfter
            (t0 ++ r.1, r.2)
          else (t0, FlowOutcome.done)

/-- `src/scripts/stash.js` `stashChanges` (lines 77-171) with the variant
`Select` and the message `Input` interruptible; a failed push exits 1
(line 169). -/
def stashChangesFlow (status : WorkingStatus) (option : Option String)
    (messageAttempts : List String) (pushSucceeds : Bool)
    (_listAfter : List StashEntry) : List GitArgs × FlowOutcome :=
  if status.modified == 0 && status.staged == 0 then
    (workingStatusQueries, FlowOutcome.done)
  else
    match option with
    | none => (workingStatusQueries, FlowOutcome.cancelled)
    | some opt =>
        match (if opt == "message"
               then (inputSession messageNonBlank messageAttempts).2
               else some "") with
        | none => (workingStatusQueries, FlowOutcome.cancelled)
        | some m =>
            let args := stashPushArgs opt m
            if pushSucceeds then
              (workingStatusQueries ++ [args, stashListQuery], FlowOutcome.done)
            else (workingStatusQueries ++ [args], FlowOutcome.failed)

/-- `src/scripts/stash.js` `manageStashes` (lines 174-216): list the
stashes, select one (or clear-all, or back), then operate on it. -/
def manageStashesFlow (status : WorkingStatus) (stashes : List StashEntry)
    (selection : Option String) (clearAttempts : List String)
    (clearSucceeds : Bool) (visits : List StashVisit) (opSucceeds : Bool)
    (listAfter : List StashEntry) : List GitArgs × FlowOutcome :=
  let t0 : List GitArgs := [stashListQuery]
  if stashes.isEmpty then (t0, FlowOutcome.done)
  else
    match selection with
    | none => (t0, FlowOutcome.cancelled)
    | some sel =>
        if sel == "__cancel__" then (t0, FlowOutcome.done)
        else if sel == "__clear__" then
          let r := clearAllStashesFlow stashes clearAttempts clearSucceeds
          (t0 ++ r.1, r.2)
        else
          let r := operateOnStash status sel opSucceeds listAfter visits
          (t0 ++ r.1, r.2)

/-- Environment and operator answers for one run of `stash.js` `main`
(lines 447-542). -/
structure StashMainEnv where
  status : WorkingStatus
  stashes : List StashEntry
  /-- answer to the main-menu `Select`; `none` = interrupted -/
  action : Option String
  pushOption : Option String
  msgAttempts : List String
  pushSucceeds : Bool
  selection : Option String
  clearAttempts : List String
  clearSucceeds : Bool
  visits : List StashVisit
  opSucceeds : Bool
  listAfter : List StashEntry

/-- The inspections `stash.js` `main` runs before the menu (lines 457-459):
current branch, working status, stash list. -/
def stashEntryQueries : List GitArgs :=
  ["branch", "--show-current"] :: workingStatusQueries ++ [stashListQuery]

/-- `src/scripts/stash.js` `main`'s switch (lines 520-533). -/
def stashDispatch (e : StashMainEnv) (a : String) : List GitArgs × FlowOutcome :=
  if a == "stash" then
    stashChangesFlow e.status e.pushOption e.msgAttempts e.pushSucceeds e.listAfter
  else if a == "manage" then
    manageStashesFlow e.status e.stashes e.selection e.clearAttempts
      e.clearSucceeds e.visits e.opSucceeds e.listAfter
  else if a == "list" then ([stashListQuery], FlowOutcome.done)
  else ([], FlowOutcome.done)

/-- `src/scripts/stash.js` `main` (lines 447-542): entry inspections,
conditional menu (no prompt when nothing to do), dispatch; the catch (lines
534-538) prints 已取消操作 and exits 0 on a prompt rejection; a flow that
exited 1 from inside stays 1. -/
def stashMainRun (e : StashMainEnv) : CliRun :=
  if !(stashMain e.status e.stashes).promptShown then ⟨stashEntryQueries, 0, []⟩
  else
    match e.action with
    | none => ⟨stashEntryQueries, 0, ["已取消操作"]⟩
    | some a =>
        let r := stashDispatch e a
        match r.2 with
        | FlowOutcome.cancelled => ⟨stashEntryQueries ++ r.1, 0, ["已取消操作"]⟩
        | FlowOutcome.failed => ⟨stashEntryQueries ++ r.1, 1, []⟩
        | FlowOutcome.done => ⟨stashEntryQueries ++ r.1, 0, []⟩

/-- The operator cancelled some prompt of this `stash.js` run. -/
def stashCancelled (e : StashMainEnv) : Bool :=
  (stashMain e.status e.stashes).promptShown &&
    (match e.action with
     | none => true
     | some a => decide ((stashDispatch e a).2 = FlowOutcome.cancelled))

theorem isMutating_stashList (rest : List String) :
    isMutating ("stash" :: "list" :: rest) = false := rfl

theorem isMutating_stashShow (rest : List String) :
    isMutating ("stash" :: "show" :: rest) = false := rfl

theorem filter_workingStatusQueries :
    workingStatusQueries.filter isMutating = [] := rfl

theorem filter_stashEntryQueries :
    stashEntryQueries.filter isMutating = [] := rfl

theorem popStashFlow_cancelled (status : WorkingStatus)
    (confirmDirty : Option Bool) (stashRef : String) (popSucceeds : Bool)
    (listAfter : List StashEntry)
    (h : (popStashFlow status confirmDirty stashRef popSucceeds listAfter).2 =
      FlowOutcome.cancelled) :
    (popStashFlow status confirmDirty stashRef popSucceeds listAfter).1.filter
      isMutating = [] := by
  unfold popStashFlow at h ⊢
  by_cases hc : hasChanges status = true
  · rw [if_pos hc] at h ⊢
    cases confirmDirty with
    | none => exact filter_workingStatusQueries
    | some c => simp at h
  · rw [if_neg hc] at h
    simp at h

theorem applyStashFlow_cancelled (status : WorkingStatus)
    (confirmDirty : Option Bool) (stashRef : String)
    (h : (applyStashFlow status confirmDirty stashRef).2 =
      FlowOutcome.cancelled) :
    (applyStashFlow status confirmDirty stashRef).1.filter isMutating = [] := by
  unfold applyStashFlow at h ⊢
  by_cases hc : hasChanges status = true
  · rw [if_pos hc] at h ⊢
    cases confirmDirty with
    | none => exact filter_workingStatusQueries
    | some c => simp at h
  · rw [if_neg hc] at h
    simp at h

theorem dropStashFlow_cancelled (dropConfirm : Option Bool) (stashRef : String)
    (dropSucceeds : Bool) (listAfter : List StashEntry)
    (h : (dropStashFlow dropConfirm stashRef dropSucceeds listAfter).2 =
      FlowOutcome.cancelled) :
    (dropStashFlow dropConfirm stashRef dropSucceeds listAfter).1.filter
      isMutating = [] := by
  unfold dropStashFlow at h ⊢
  cases dropConfirm with
  | none => rfl
  | some c => simp at h

theorem clearAllStashesFlow_cancelled (stashes : List StashEntry)
    (confirmAttempts : List String) (clearSucceeds : Bool)
    (h : (clearAllStashesFlow stashes confirmAttempts clearSucceeds).2 =
      FlowOutcome.cancelled) :
    (clearAllStashesFlow stashes confirmAttempts clearSucceeds).1.filter
      isMutating = [] := by
  cases hin : (inputSession (fun v => v == "yes") confirmAttempts).2 with
  | none =>
      simp [clearAllStashesFlow, clearAllStashes, hin, stashListQuery,
        isMutating_stashList]
  | some y => simp [clearAllStashesFlow, clearAllStashes, hin] at h

theorem stashChangesFlow_cancelled (status : WorkingStatus)
    (option : Option String) (messageAttempts : List String)
    (pushSucceeds : Bool) (listAfter : List StashEntry)
    (h : (stashChangesFlow status option messageAttempts pushSucceeds
        listAfter).2 = FlowOutcome.cancelled) :
    (stashChangesFlow status option messageAttempts pushSucceeds
        listAfter).1.filter isMutating = [] := by
  by_cases h0 : status.modified = 0 ∧ status.staged = 0
  · simp [stashChangesFlow, h0.1, h0.2] at h
  · cases option with
    | none => simp [stashChangesFlow, h0, filter_workingStatusQueries]
    | some opt =>
        by_cases hmsg : opt = "message"
        · subst hmsg
          cases hm : (inputSession messageNonBlank messageAttempts).2 with
          | none =>
              simp [stashChangesFlow, h0, hm, filter_workingStatusQueries]
          | some m =>
              cases pushSucceeds <;> simp [stashChangesFlow, h0, hm] at h
        · cases pushSucceeds <;> simp [stashChangesFlow, h0, hmsg] at h

theorem operateOnStash_cancelled (status : WorkingStatus) (stashRef : String)
    (succeeds : Bool) (listAfter : List StashEntry) (visits : List StashVisit)
    (h : (operateOnStash status stashRef succeeds listAfter visits).2 =
      FlowOutcome.cancelled) :
    (operateOnStash status stashRef succeeds listAfter visits).1.filter
      isMutating = [] := by
  induction visits with
  | nil => rfl
  | cons v rest ih =>
      obtain ⟨va, vdirty, vdrop, vshow⟩ := v
      cases va with
      | none => rfl
      | some a =>
          by_cases h1 : a = "cancel"
          · simp [operateOnStash, h1] at h
          · by_cases h2 : a = "pop"
            · have hp := popStashFlow_cancelled status vdirty stashRef succeeds
                listAfter (by simpa [operateOnStash, h1, h2] using h)
              simp [operateOnStash, h1, h2, isMutating_stashList, hp]
            · by_cases h3 : a = "apply"
              · have hp := applyStashFlow_cancelled status vdirty stashRef
                  (by simpa [operateOnStash, h1, h2, h3] using h)
                simp [operateOnStash, h1, h2, h3, isMutating_stashList, hp]
              · by_cases h4 : a = "show"
                · cases vshow with
                  | none =>
                      simp [operateOnStash, h1, h2, h3, h4,
                        isMutating_stashList, isMutating_stashShow]
                  | some cont =>
                      cases cont with
                      | false => simp [operateOnStash, h1, h2, h3, h4] at h
                      | true =>
                          have hr := ih
                            (by simpa [operateOnStash, h1, h2, h3, h4] using h)
                          simp [operateOnStash, h1, h2, h3, h4,
                            isMutating_stashList, isMutating_stashShow, hr]
                · by_cases h5 : a = "drop"
                  · have hp := dropStashFlow_cancelled vdrop stashRef succeeds
                      listAfter
                      (by simpa [operateOnStash, h1, h2, h3, h4, h5] using h)
                    simp [operateOnStash, h1, h2, h3, h4, h5,
                      isMutating_stashList, hp]
                  · simp [operateOnStash, h1, h2, h3, h4, h5] at h

theorem manageStashesFlow_cancelled (status : WorkingStatus)
    (stashes : List StashEntry) (selection : Option String)
    (clearAttempts : List String) (clearSucceeds : Bool)
    (visits : List StashVisit) (opSucceeds : Bool)
    (listAfter : List StashEntry)
    (h : (manageStashesFlow status stashes selection clearAttempts
        clearSucceeds visits opSucceeds listAfter).2 = FlowOutcome.cancelled) :
    (manageStashesFlow status stashes selection clearAttempts clearSucceeds
        visits opSucceeds listAfter).1.filter isMutating = [] := by
  by_cases he : stashes = []
  · subst he
    simp [manageStashesFlow] at h
  · cases selection with
    | none =>
        simp [manageStashesFlow, List.isEmpty_iff, he, stashListQuery,
          isMutating_stashList]
    | some sel =>
        by_cases h1 : sel = "__cancel__"
        · simp [manageStashesFlow, List.isEmpty_iff, he, h1] at h
        · by_cases h2 : sel = "__clear__"
          · have hp := clearAllStashesFlow_cancelled stashes clearAttempts
              clearSucceeds
              (by simpa [manageStashesFlow, List.isEmpty_iff, he, h1, h2] using h)
            simp [manageStashesFlow, List.isEmpty_iff, he, h1, h2,
              stashListQuery, isMutating_stashList, hp]
          · have hp := operateOnStash_cancelled status sel opSucceeds listAfter
              visits
              (by simpa [manageStashesFlow, List.isEmpty_iff, he, h1, h2] using h)
            simp [manageStashesFlow, List.isEmpty_iff, he, h1, h2,
              stashListQuery, isMutating_stashList, hp]

theorem stashDispatch_cancelled (e : StashMainEnv) (a : String)
    (h : (stashDispatch e a).2 = FlowOutcome.cancelled) :
    (stashDispatch e a).1.filter isMutating = [] := by
  by_cases h1 : a = "stash"
  · have hf := stashChangesFlow_cancelled e.status e.pushOption e.msgAttempts
      e.pushSucceeds e.listAfter (by simpa [stashDispatch, h1] using h)
    simpa [stashDispatch, h1] using hf
  · by_cases h2 : a = "manage"
    · have hf := manageStashesFlow_cancelled e.status e.stashes e.selection
        e.clearAttempts e.clearSucceeds e.visits e.opSucceeds e.listAfter
        (by simpa [stashDispatch, h1, h2] using h)
      simpa [stashDispatch, h1, h2] using hf
    · by_cases h3 : a = "list"
      · simp [stashDispatch, h1, h2, h3] at h
      · simp [stashDispatch, h1, h2, h3] at h

/-- Any cancellation in a `stash.js` run reaches the catch: exit 0, the
cancellation message, and no mutating command ever issued. -/
theorem stashMain_cancelled (e : StashMainEnv) (h : stashCancelled e = true) :
    (stashMainRun e).exitCode = 0 ∧ (stashMainRun e).msgs = ["已取消操作"] ∧
    (stashMainRun e).trace.filter isMutating = [] := by
  unfold stashCancelled at h
  rw [Bool.and_eq_true] at h
  obtain ⟨hp, hrest⟩ := h
  cases ha : e.action with
  | none =>
      refine ⟨?_, ?_, ?_⟩ <;>
        simp [stashMainRun, hp, ha, filter_stashEntryQueries]
  | some a =>
      rw [ha] at hrest
      have h' : (stashDispatch e a).2 = FlowOutcome.cancelled := by
        simpa using hrest
      refine ⟨?_, ?_, ?_⟩ <;>
        simp [stashMainRun, hp, ha, h', filter_stashEntryQueries,
          stashDispatch_cancelled e a h']

/-- `gcb.js` (clipboard tool, second file of `src/unnamed/part_002`): list
branches, select one, copy it; cancelling the `Select` (lines 117-121)
prints 已取消。 and exits 1; the tool never issues a mutating git command. -/
def gcbMain (branchesOk : Bool) (selection : Option String) (copied : Bool) :
    CliRun :=
  if !branchesOk then ⟨[["branch", "--no-color"]], 1, [gcbErrMsg]⟩
  else
    match selection with
    | none => ⟨[["branch", "--no-color"]], 1, ["已取消。"]⟩
    | some b =>
        ⟨[["branch", "--no-color"]], 0,
          [if copied then "已复制分支名：" ++ b
           else "无法写入剪贴板。分支名为：" ++ b]⟩

/-- C3 (amended): in the reset and stash tools, every prompt cancellation
reaches the top-level catch, which prints the cancellation message and
exits 0 — and in these tools cancellation always occurs before any mutating
git command has been issued; the branch-deletion tool instead exits 1 when
the operator cancels its branch `MultiSelect` even though no git command
has been issued yet, and the clipboard tool likewise prints its
cancellation message and exits 1 on a cancelled selection. -/
theorem claim_C3 (re : ResMainEnv) (se : StashMainEnv) (e : BdEnv)
    (copied : Bool) (hr : resCancelled re = true) (hs : stashCancelled se = true)
    (he : e.selection = none) (hne : bdCandidates e ≠ []) :
    ((resMain re).exitCode = 0 ∧ (resMain re).msgs = ["已取消操作"] ∧
      (resMain re).trace.filter isMutating = []) ∧
    ((stashMainRun se).exitCode = 0 ∧ (stashMainRun se).msgs = ["已取消操作"] ∧
      (stashMainRun se).trace.filter isMutating = []) ∧
    ((bdMain e).exitCode = 1 ∧ (bdMain e).trace = []) ∧
    ((gcbMain true none copied).exitCode = 1 ∧
      (gcbMain true none copied).msgs = ["已取消。"] ∧
      (gcbMain true none copied).trace.filter isMutating = []) := by
  have hempty : (bdCandidates e).isEmpty = false := by
    simpa [List.isEmpty_iff] using hne
  refine ⟨resMain_cancelled re hr, stashMain_cancelled se hs, ⟨?_, ?_⟩,
    rfl, rfl, rfl⟩
  · simp [bdMain, he, hempty]
  · simp [bdMain, he, hempty]

/-- Witness for the amended C3: a rewind run cancelled at the custom-count
input, a stash run cancelled at the main menu, bd cancelled at the branch
select, gcb cancelled at its select. -/
theorem claim_C3_witness :
    ((resMain ⟨some "resetCommits",
        ⟨some "custom", ["abc"], some ResetMode.mixed, [], true⟩, [], none,
        fun _ => false, none, "", "", [], [], none, none, true,
        ⟨none, none, [], true, "", none, none, true⟩⟩).exitCode = 0 ∧
      (resMain ⟨some "resetCommits",
        ⟨some "custom", ["abc"], some ResetMode.mixed, [], true⟩, [], none,
        fun _ => false, none, "", "", [], [], none, none, true,
        ⟨none, none, [], true, "", none, none, true⟩⟩).msgs = ["已取消操作"] ∧
      (resMain ⟨some "resetCommits",
        ⟨some "custom", ["abc"], some ResetMode.mixed, [], true⟩, [], none,
        fun _ => false, none, "", "", [], [], none, none, true,
        ⟨none, none, [], true, "", none, none, true⟩⟩).trace.filter
          isMutating = []) ∧
    ((stashMainRun ⟨⟨0, 0, 0⟩, [⟨"s0", "wip", "now"⟩], none, none, [], true,
        none, [], true, [], true, []⟩).exitCode = 0 ∧
      (stashMainRun ⟨⟨0, 0, 0⟩, [⟨"s0", "wip", "now"⟩], none, none, [], true,
        none, [], true, [], true, []⟩).msgs = ["已取消操作"] ∧
      (stashMainRun ⟨⟨0, 0, 0⟩, [⟨"s0", "wip", "now"⟩], none, none, [], true,
        none, [], true, [], true, []⟩).trace.filter isMutating = []) ∧
    ((bdMain ⟨"work", ["work", "dev"], none, true, fun _ => false, false,
        fun _ => false, false, [], none, fun _ => false⟩).exitCode = 1 ∧
      (bdMain ⟨"work", ["work", "dev"], none, true, fun _ => false, false,
        fun _ => false, false, [], none, fun _ => false⟩).trace = []) ∧
    ((gcbMain true none true).exitCode = 1 ∧
      (gcbMain true none true).msgs = ["已取消。"] ∧
      (gcbMain true none true).trace.filter isMutating = []) := by
  exact claim_C3
    ⟨some "resetCommits",
      ⟨some "custom", ["abc"], some ResetMode.mixed, [], true⟩, [], none,
      fun _ => false, none, "", "", [], [], none, none, true,
      ⟨none, none, [], true, "", none, none, true⟩⟩
    ⟨⟨0, 0, 0⟩, [⟨"s0", "wip", "now"⟩], none, none, [], true, none, [], true,
      [], true, []⟩
    ⟨"work", ["work", "dev"], none, true, fun _ => false, false,
      fun _ => false, false, [], none, fun _ => false⟩
    true (by decide) (by decide) rfl (by decide)

end TerminalScript
